import Mathlib

/-!
Verification of the SecureWatch detection-engine pipeline
(`src/backend-analysis/detect_engine.py`).

The shallow embedding below translates, from the source:
  * the episode segmenter step shared by `_process_stream` (LIVE mode,
    `SILENCE_THRESHOLD = 15`, `MAX_EPISODE_FRAMES = 300`) and
    `_http_polling_session` (HTTP polling mode, `SILENCE_THRESHOLD = 6`,
    `MAX_EPISODE_FRAMES = 120`);
  * the full `_process_stream` loop including its failure counting,
    frame decimation, give-up branch and `finally` flush;
  * the delivery paths of `_post_detection` and `_send_episode`
    (Redis queue + broadcast, HTTP fallback);
  * the Telegram alert gate `_send_telegram_alert`;
  * the startup sequence of `__init__` / `start` /
    `_start_heartbeat_thread` and the CLI mode choices of `parse_args`.

Modelling conventions: timestamps (`time.time()` floats) are integers in
seconds; confidences are integers in thousandths (the engine rounds every
confidence to three decimals in `_detect_frame`, so `0.7` is `700`);
bounding-box coordinates are opaque integer payload; frames (pixel
buffers) are opaque natural-number identifiers, and `frame.copy()` copies
the identifier.  Python's `str.upper` / `str.lower` are embedded as ASCII
case maps, which agree with them on every string the engine compares
against (`'UPLOAD'`, `'LIVE'`, `'HTTP'`, `'person'`).
-/

namespace SecureWatch

/-- ASCII upper-casing of one character. -/
def upperChar (c : Char) : Char :=
  if 'a' ≤ c ∧ c ≤ 'z' then Char.ofNat (c.toNat - 32) else c

/-- ASCII lower-casing of one character. -/
def lowerChar (c : Char) : Char :=
  if 'A' ≤ c ∧ c ≤ 'Z' then Char.ofNat (c.toNat + 32) else c

/-- ASCII embedding of Python's `str.upper`, used by
`self.mode = mode.upper()` in `__init__`. -/
def upperAscii (s : String) : String := String.mk (s.data.map upperChar)

/-- ASCII embedding of Python's `str.lower`, used by
`det['class'].lower()` in `_send_telegram_alert`. -/
def lowerAscii (s : String) : String := String.mk (s.data.map lowerChar)

/-- A detection record as produced by `_detect_frame`:
`{'class': cls_name, 'confidence': round(conf, 3), 'bbox': [...]}`
(the `class_id` field is dropped as it is never read downstream).
`confidence` is in thousandths. -/
structure Det where
  cls : String
  confidence : Nat
  bbox : List Int
deriving DecidableEq

/-- The per-frame detection entry re-built inside the episode loops:
`{'label': det['class'], 'confidence': det['confidence'],
'bbox': det['bbox']}`. -/
structure FrameDet where
  label : String
  confidence : Nat
  bbox : List Int
deriving DecidableEq

/-- The relabelling performed by the `for det in detections` loop. -/
def toFrameDet (d : Det) : FrameDet :=
  ⟨d.cls, d.confidence, d.bbox⟩

/-- One Python-dict update
`detections_summary[cls] = detections_summary.get(cls, 0) + 1`:
increment an existing key in place, else append the new key at the end
(insertion-ordered dict). -/
def bumpSummary : List (String × Nat) → String → List (String × Nat)
  | [], cls => [(cls, 1)]
  | (k, n) :: rest, cls =>
    if k = cls then (k, n + 1) :: rest else (k, n) :: bumpSummary rest cls

/-- A processed frame as seen by the segmenter: the detections returned by
`_detect_frame`, `current_time`, the opaque frame buffer and
`self.frame_count`. -/
structure ProcFrame where
  dets : List Det
  time : Int
  image : Nat
  frameNumber : Nat
deriving DecidableEq

/-- The record appended to `active_frames`:
`{'seq': len(active_frames), 'image': frame.copy(), 'detections': ...,
'timestamp': current_time, 'frame_number': self.frame_count}`. -/
structure FrameRec where
  seq : Nat
  image : Nat
  detections : List FrameDet
  timestamp : Int
  frameNumber : Nat
deriving DecidableEq

/-- An episode as handed to `_send_episode`: the accumulated frame records
plus the `detections_summary` counts. -/
structure Episode where
  frames : List FrameRec
  summary : List (String × Nat)
deriving DecidableEq

/-- The segmenter state threaded through one streaming session:
`active_frames`, `detections_summary`, `silence_counter`,
`episode_start_time`. -/
structure SegState where
  activeFrames : List FrameRec
  detectionsSummary : List (String × Nat)
  silenceCounter : Nat
  episodeStart : Option Int
deriving DecidableEq

/-- The initial segmenter state of a session. -/
def initSeg : SegState := ⟨[], [], 0, none⟩

/-- The two per-mode threshold constants. -/
structure SegParams where
  silenceThreshold : Nat
  maxEpisodeFrames : Nat
deriving DecidableEq

/-- LIVE mode: `SILENCE_THRESHOLD = 15`, `MAX_EPISODE_FRAMES = 300`. -/
def liveParams : SegParams := ⟨15, 300⟩

/-- HTTP polling mode: `SILENCE_THRESHOLD = 6`, `MAX_EPISODE_FRAMES = 120`. -/
def pollParams : SegParams := ⟨6, 120⟩

/-- The record appended for an activity frame. -/
def newRec (s : SegState) (f : ProcFrame) : FrameRec :=
  ⟨s.activeFrames.length, f.image, f.dets.map toFrameDet, f.time, f.frameNumber⟩

/-- The summary after merging the frame's per-class counts. -/
def newSummary (s : SegState) (f : ProcFrame) : List (String × Nat) :=
  f.dets.foldl (fun acc d => bumpSummary acc d.cls) s.detectionsSummary

/-- One segmenter step on a processed frame, returning the new state and the
episode flushed during the step, if any.  Mirrors the
`if has_detections: ... else: ...` block shared by `_process_stream` and
`_http_polling_session`:

* activity: reset the silence counter, record a start time if none, append
  a `FrameRec`; if the frame list has reached `MAX_EPISODE_FRAMES`, send it
  and reset with `episode_start_time = current_time`;
* silence: increment the silence counter; if it has reached
  `SILENCE_THRESHOLD` and `active_frames` is non-empty, send the episode
  and clear all segmenter state. -/
def stepFrame (p : SegParams) (s : SegState) (f : ProcFrame) :
    SegState × Option Episode :=
  if f.dets.isEmpty then
    if p.silenceThreshold ≤ s.silenceCounter + 1 ∧ s.activeFrames ≠ [] then
      (⟨[], [], 0, none⟩, some ⟨s.activeFrames, s.detectionsSummary⟩)
    else
      (⟨s.activeFrames, s.detectionsSummary, s.silenceCounter + 1,
        s.episodeStart⟩, none)
  else
    if p.maxEpisodeFrames ≤ (s.activeFrames ++ [newRec s f]).length then
      (⟨[], [], 0, some f.time⟩,
       some ⟨s.activeFrames ++ [newRec s f], newSummary s f⟩)
    else
      (⟨s.activeFrames ++ [newRec s f], newSummary s f, 0,
        some (s.episodeStart.getD f.time)⟩, none)

/-- Run the segmenter over a list of processed frames, keeping the state. -/
def runFrames (p : SegParams) : SegState → List ProcFrame → SegState
  | s, [] => s
  | s, f :: fs => runFrames p (stepFrame p s f).1 fs

/-- Run the segmenter, recording each flushed episode with the (0-based)
index of the processed frame whose step flushed it. -/
def runTrace (p : SegParams) : SegState → Nat → List ProcFrame →
    List (Nat × Episode)
  | _, _, [] => []
  | s, i, f :: fs =>
    (match (stepFrame p s f).2 with
      | some e => [(i, e)]
      | none => []) ++ runTrace p (stepFrame p s f).1 (i + 1) fs

/-- One read attempt on the LIVE capture: `ret, frame = self.cap.read()`,
together with the detections the model would report on that frame and the
wall-clock time of the iteration. -/
inductive Read where
  | ok (dets : List Det) (time : Int) (image : Nat)
  | fail
deriving DecidableEq

/-- `LIVE_FRAME_SKIP = 3`. -/
def LIVE_FRAME_SKIP : Nat := 3

/-- `max_failures = 30` in `_process_stream`. -/
def STREAM_MAX_FAILURES : Nat := 30

/-- The loop-carried state of `_process_stream`: the segmenter state plus
`consecutive_failures` and `self.frame_count`. -/
structure StreamState where
  seg : SegState
  consecutiveFailures : Nat
  frameCount : Nat
deriving DecidableEq

/-- The `while self.running and consecutive_failures < max_failures` loop of
`_process_stream`.  Exhausting the input list models `self.running` going
false (shutdown or caller stop); a `Read.fail` is `ret == False`; a
successful read resets the failure counter, bumps `frame_count`, and is
decimated by `LIVE_FRAME_SKIP` before reaching the segmenter step.
Episodes flushed inside the loop are accumulated in `sent`. -/
def streamLoop : List Read → StreamState → List Episode →
    StreamState × List Episode
  | [], st, sent => (st, sent)
  | r :: rs, st, sent =>
    if STREAM_MAX_FAILURES ≤ st.consecutiveFailures then (st, sent)
    else
      match r with
      | .fail => streamLoop rs ⟨st.seg, st.consecutiveFailures + 1, st.frameCount⟩ sent
      | .ok dets t img =>
        if (st.frameCount + 1) % LIVE_FRAME_SKIP ≠ 0 then
          streamLoop rs ⟨st.seg, 0, st.frameCount + 1⟩ sent
        else
          streamLoop rs
            ⟨(stepFrame liveParams st.seg ⟨dets, t, img, st.frameCount + 1⟩).1,
              0, st.frameCount + 1⟩
            (sent ++ ((stepFrame liveParams st.seg
              ⟨dets, t, img, st.frameCount + 1⟩).2).toList)

/-- One full `_process_stream` call over a finite read sequence: runs the
loop, then the post-loop give-up branch (`if consecutive_failures >=
max_failures:` send the pending episode and raise), then the `finally`
block (`if active_frames:` send the final episode).  Returns the list of
episodes sent by the call, in order, and whether the call raised
`RuntimeError`.  Note that the give-up branch of the source does not clear
`active_frames` before raising. -/
def processStream (reads : List Read) : List Episode × Bool :=
  match streamLoop reads ⟨initSeg, 0, 0⟩ [] with
  | (st, sent) =>
    if STREAM_MAX_FAILURES ≤ st.consecutiveFailures then
      if st.seg.activeFrames.isEmpty then (sent, true)
      else
        (sent ++ [⟨st.seg.activeFrames, st.seg.detectionsSummary⟩]
              ++ [⟨st.seg.activeFrames, st.seg.detectionsSummary⟩], true)
    else
      if st.seg.activeFrames.isEmpty then (sent, false)
      else (sent ++ [⟨st.seg.activeFrames, st.seg.detectionsSummary⟩], false)

/-- One delivery action attempted by `_post_detection` / `_send_episode`. -/
inductive DeliveryAction where
  | lpush (queue : String)
  | publish (topic : String)
  | httpPost
deriving DecidableEq

/-- The transport configuration and outcomes a single delivery runs
against: whether a Redis client is connected, whether the `lpush` and
`publish` calls return without raising `RedisError`, whether a fallback
endpoint is configured, and the HTTP response status
(`none` = the request raised). -/
structure TransportEnv where
  redisConfigured : Bool
  lpushOk : Bool
  publishOk : Bool
  endpointConfigured : Bool
  httpStatus : Option Nat
deriving DecidableEq

/-- The fallback half shared by both senders: `if not self.endpoint:
return`, else one `requests.post` to the configured endpoint. -/
def httpFallbackTrace (env : TransportEnv) : List DeliveryAction :=
  if env.endpointConfigured then [.httpPost] else []

/-- The attempts made by `_post_detection`: if Redis is connected, `lpush`
onto `'detection_queue'` then `publish` on `'live_events'` and return; a
`RedisError` from either call falls through to the HTTP fallback (a raise
from `lpush` skips `publish`). -/
def postDetectionTrace (env : TransportEnv) : List DeliveryAction :=
  if env.redisConfigured then
    if env.lpushOk then
      if env.publishOk then [.lpush "detection_queue", .publish "live_events"]
      else [.lpush "detection_queue", .publish "live_events"]
            ++ httpFallbackTrace env
    else [.lpush "detection_queue"] ++ httpFallbackTrace env
  else httpFallbackTrace env

/-- The HTTP-fallback tail of `_send_episode`: no endpoint returns `False`;
otherwise one POST whose result is `True` exactly when
`response.status_code == 200`, and `False` on any `requests` exception. -/
def sendEpisodeHttpTail (env : TransportEnv) (pre : List DeliveryAction) :
    List DeliveryAction × Bool :=
  if env.endpointConfigured then
    (pre ++ [.httpPost],
     match env.httpStatus with
     | some s => s == 200
     | none => false)
  else (pre, false)

/-- The attempts made by `_send_episode` together with its boolean result:
Redis path first (`lpush 'detection_queue'`, `publish 'live_events'`,
return `True`), falling through to the HTTP tail when unconfigured or on
`RedisError`. -/
def sendEpisodeOutcome (env : TransportEnv) : List DeliveryAction × Bool :=
  if env.redisConfigured then
    if env.lpushOk then
      if env.publishOk then
        ([.lpush "detection_queue", .publish "live_events"], true)
      else sendEpisodeHttpTail env
            [.lpush "detection_queue", .publish "live_events"]
    else sendEpisodeHttpTail env [.lpush "detection_queue"]
  else sendEpisodeHttpTail env []

/-- `ALERT_COOLDOWN = 30` seconds. -/
def ALERT_COOLDOWN : Int := 30

/-- `ALERT_CONFIDENCE_THRESHOLD = 0.7`, i.e. 700 thousandths. -/
def ALERT_CONFIDENCE_THRESHOLD : Nat := 700

/-- The per-detection test of the alert loop:
`det['class'].lower() == 'person' and det['confidence'] >=
self.ALERT_CONFIDENCE_THRESHOLD`. -/
def qualifiesForAlert (d : Det) : Bool :=
  lowerAscii d.cls == "person" && ALERT_CONFIDENCE_THRESHOLD ≤ d.confidence

/-- The `for det in detections` scan of `_send_telegram_alert`: stop at the
first qualifying detection, attempt exactly one send for it and `break`;
`last_alert_time` is updated to `current_time` only if `send_alert`
returns without raising (`sendOk`).  Returns the number of send attempts
(0 or 1) and the new `last_alert_time`. -/
def alertScan (sendOk : Bool) (now lastAlert : Int) : List Det → Nat × Int
  | [] => (0, lastAlert)
  | d :: ds =>
    if qualifiesForAlert d then (1, if sendOk then now else lastAlert)
    else alertScan sendOk now lastAlert ds

/-- One `_send_telegram_alert` call: a disabled notifier or an unelapsed
cooldown (`current_time - self.last_alert_time < ALERT_COOLDOWN`) returns
immediately; otherwise the detection batch is scanned. -/
def sendTelegramAlert (enabled sendOk : Bool) (now lastAlert : Int)
    (dets : List Det) : Nat × Int :=
  if enabled then
    if now - lastAlert < ALERT_COOLDOWN then (0, lastAlert)
    else alertScan sendOk now lastAlert dets
  else (0, lastAlert)

/-- Resource-acquisition and control events of detector startup. -/
inductive StartEvent where
  | redisConnect
  | loadModel
  | startHeartbeat
  | runFileLoop
  | runStreamLoop
  | runHttpLoop
  | fatalUnknownMode
deriving DecidableEq

/-- The mode strings accepted by `parse_args` (`choices=['UPLOAD', 'LIVE',
'HTTP']`) and compared against in `start`. -/
def recognizedModes : List String := ["UPLOAD", "LIVE", "HTTP"]

/-- Whether the CLI parser accepts a `--mode` value. -/
def parseArgsAccepts (mode : String) : Bool := decide (mode ∈ recognizedModes)

/-- The resource acquisitions of `__init__`, in order: the Redis connection
(when a host is configured) and the YOLO model load. -/
def initEvents (redisConfigured : Bool) : List StartEvent :=
  (if redisConfigured then [.redisConnect] else []) ++ [.loadModel]

/-- The event sequence of constructing a detector with the given `mode`
argument and calling `start()`: `__init__` stores `mode.upper()` and
acquires its resources; `start` launches the heartbeat thread
(`_start_heartbeat_thread` returns early without Redis) and then
dispatches on the stored mode, raising `ValueError` on an unknown one.
Each `run...Loop` event stands for entering the per-mode loop, which is
where the frame source is first opened. -/
def startEvents (mode : String) (redisConfigured : Bool) : List StartEvent :=
  initEvents redisConfigured ++
  (if redisConfigured then [.startHeartbeat] else []) ++
  (if upperAscii mode = "UPLOAD" then [.runFileLoop]
   else if upperAscii mode = "LIVE" then [.runStreamLoop]
   else if upperAscii mode = "HTTP" then [.runHttpLoop]
   else [.fatalUnknownMode])

/-- A detection qualifying everywhere: a person at confidence 0.8. -/
def personDet : Det := ⟨"person", 800, [0, 0, 1, 1]⟩

/-- A processed frame at integer time `i` carrying one person detection. -/
def actFrame (i : Nat) : ProcFrame := ⟨[personDet], (i : Int), i, i + 1⟩

/-- A silent processed frame at integer time `i`. -/
def silentFrame (i : Nat) : ProcFrame := ⟨[], (i : Int), i, i + 1⟩

/-- C3 scenario input: activity at processed-frame indices 0–4, silence at
indices 5–19. -/
def c3Input : List ProcFrame :=
  (List.range 20).map fun i => if i < 5 then actFrame i else silentFrame i

/-- The frame records the C3 episode must contain: indices 0–4. -/
def c3ExpectedFrames : List FrameRec :=
  (List.range 5).map fun i =>
    ⟨i, i, [⟨"person", 800, [0, 0, 1, 1]⟩], (i : Int), i + 1⟩

/-- C4 scenario input: continuous activity on 305 processed frames. -/
def c4Input : List ProcFrame := (List.range 305).map actFrame

/-- C5 counterexample input: continuous activity on 120 processed frames in
polling mode, so the 120th append triggers a cap-forced flush. -/
def c5Input : List ProcFrame := (List.range 120).map actFrame

/-- C1 failing input: three successful reads (the third is the first
processed frame and opens an episode) followed by 30 consecutive read
failures, reaching the give-up ceiling. -/
def c1Input : List Read :=
  [.ok [personDet] 0 0, .ok [personDet] 1 1, .ok [personDet] 2 2]
    ++ List.replicate 30 .fail

/-- The episode the C1 run holds open when the failure ceiling is hit. -/
def c1Episode : Episode :=
  ⟨[⟨0, 2, [⟨"person", 800, [0, 0, 1, 1]⟩], 2, 3⟩], [("person", 1)]⟩

/-- C7 counterexample environment: no Redis, endpoint configured, and the
fallback POST answers 201 Created. -/
def env201 : TransportEnv := ⟨false, true, true, true, some 201⟩

/-- One segmenter step keeps the open frame list strictly below the cap. -/
theorem stepFrame_length_lt (p : SegParams) (hp : 0 < p.maxEpisodeFrames)
    (s : SegState) (f : ProcFrame)
    (h : s.activeFrames.length < p.maxEpisodeFrames) :
    (stepFrame p s f).1.activeFrames.length < p.maxEpisodeFrames := by
  unfold stepFrame
  split
  · split
    · simpa using hp
    · simpa using h
  · split
    · simpa using hp
    · rename_i hcap
      simp only [List.length_append, List.length_singleton] at hcap ⊢
      omega

/-- Running the segmenter keeps the open frame list strictly below the
cap. -/
theorem runFrames_length_lt (p : SegParams) (hp : 0 < p.maxEpisodeFrames) :
    ∀ (fs : List ProcFrame) (s : SegState),
      s.activeFrames.length < p.maxEpisodeFrames →
      (runFrames p s fs).activeFrames.length < p.maxEpisodeFrames := by
  intro fs
  induction fs with
  | nil => intro s h; simpa [runFrames] using h
  | cons f fs ih =>
    intro s h
    exact ih _ (stepFrame_length_lt p hp s f h)

/-- One segmenter step preserves "a non-empty frame list has a recorded
start time". -/
theorem stepFrame_nonempty_start (p : SegParams) (s : SegState)
    (f : ProcFrame)
    (h : s.activeFrames ≠ [] → s.episodeStart ≠ none) :
    (stepFrame p s f).1.activeFrames ≠ [] →
      (stepFrame p s f).1.episodeStart ≠ none := by
  unfold stepFrame
  split
  · split
    · simp
    · simpa using h
  · split
    · simp
    · simp

/-- Running the segmenter preserves "a non-empty frame list has a recorded
start time". -/
theorem runFrames_nonempty_start (p : SegParams) :
    ∀ (fs : List ProcFrame) (s : SegState),
      (s.activeFrames ≠ [] → s.episodeStart ≠ none) →
      (runFrames p s fs).activeFrames ≠ [] →
      (runFrames p s fs).episodeStart ≠ none := by
  intro fs
  induction fs with
  | nil => intro s h; simpa [runFrames] using h
  | cons f fs ih =>
    intro s h
    exact ih _ (stepFrame_nonempty_start p s f h)

/-- A step from a state that is not "open with zero records" can only end
in such a state through a cap-forced flush. -/
theorem stepFrame_degenerate_only_by_cap (p : SegParams) (s : SegState)
    (f : ProcFrame)
    (h : ¬ (s.episodeStart ≠ none ∧ s.activeFrames = []))
    (h1 : (stepFrame p s f).1.episodeStart ≠ none)
    (h2 : (stepFrame p s f).1.activeFrames = []) :
    ∃ e, (stepFrame p s f).2 = some e ∧
      p.maxEpisodeFrames ≤ e.frames.length := by
  revert h1 h2
  unfold stepFrame
  split
  · split
    · intro h1 _; simp at h1
    · intro h1 h2
      exact absurd ⟨h1, h2⟩ h
  · split
    · rename_i hcap
      intro _ _
      exact ⟨_, rfl, hcap⟩
    · intro _ h2
      simp at h2

/-- C1: in LIVE mode, when an episode is open and the connection failure
ceiling (30 consecutive failed reads) is reached, `_process_stream` sends
the very same episode twice: once in the give-up branch before raising
`RuntimeError` (which does not clear `active_frames`) and once more in the
`finally` block.  Evaluating the embedded loop on the failing input — one
processed activity frame followed by 30 read failures — yields the same
non-trivial episode delivered twice, contradicting the exactly-once
delivery the claim (and the spec) states. -/
theorem duplicate_episode_flush_on_giveup :
    processStream c1Input = ([c1Episode, c1Episode], true) ∧
    c1Episode.frames ≠ [] := by
  decide

/-- C2: over every sequence of per-frame activity signals, in LIVE mode
(`MAX_EPISODE_FRAMES = 300`) and polling mode (`MAX_EPISODE_FRAMES = 120`)
alike, the open episode never holds more than `MAX_EPISODE_FRAMES` frame
records between frame-processing steps, and whenever an append makes the
count reach the cap the very same step closes and flushes the episode. -/
theorem episode_frames_never_exceed_cap (fs : List ProcFrame)
    (p : SegParams) (s : SegState) (f : ProcFrame) :
    (runFrames liveParams initSeg fs).activeFrames.length ≤ 300 ∧
    (runFrames pollParams initSeg fs).activeFrames.length ≤ 120 ∧
    (f.dets.isEmpty = false →
      p.maxEpisodeFrames ≤ s.activeFrames.length + 1 →
      (stepFrame p s f).1.activeFrames = [] ∧
      (stepFrame p s f).2 =
        some ⟨s.activeFrames ++ [newRec s f], newSummary s f⟩) := by
  refine ⟨?_, ?_, ?_⟩
  · exact le_of_lt (runFrames_length_lt liveParams (by decide) fs initSeg
      (by simp [initSeg, liveParams]))
  · exact le_of_lt (runFrames_length_lt pollParams (by decide) fs initSeg
      (by simp [initSeg, pollParams]))
  · intro hact hcap
    unfold stepFrame
    rw [if_neg (by simp [hact])]
    rw [if_pos (by simpa using hcap)]
    exact ⟨rfl, rfl⟩

/-- Witness for C2 at concrete inputs: the empty run in both modes, and a
cap-reaching append with a one-frame cap. -/
theorem episode_frames_never_exceed_cap_witness :
    (runFrames liveParams initSeg []).activeFrames.length ≤ 300 ∧
    (runFrames pollParams initSeg []).activeFrames.length ≤ 120 ∧
    ((stepFrame ⟨15, 1⟩ initSeg (actFrame 0)).1.activeFrames = [] ∧
      (stepFrame ⟨15, 1⟩ initSeg (actFrame 0)).2 =
        some ⟨[] ++ [newRec initSeg (actFrame 0)],
          newSummary initSeg (actFrame 0)⟩) := by
  have h := episode_frames_never_exceed_cap [] ⟨15, 1⟩ initSeg (actFrame 0)
  exact ⟨h.1, h.2.1, h.2.2 (by decide) (by decide)⟩

/-- C3: with `SILENCE_THRESHOLD = 15`, on the processed-frame sequence with
activity at indices 0–4 and silence at indices 5–19, exactly one episode
is flushed, the flush happens while processing index 19, the episode
contains exactly the frame records for indices 0–4, and the segmenter
returns to the idle state. -/
theorem silence_flush_exactly_at_index_19 :
    runTrace liveParams initSeg 0 c3Input =
      [(19, ⟨c3ExpectedFrames, [("person", 5)]⟩)] ∧
    runFrames liveParams initSeg c3Input = initSeg := by
  decide

set_option maxRecDepth 8000 in
/-- C4: with `MAX_EPISODE_FRAMES = 300` and continuous activity on 305
processed frames, exactly one forced flush occurs, at the 300th activity
frame (index 299), delivering an episode of exactly 300 records (source
frames 1–300); afterwards a second episode stays open at the flush
timestamp holding exactly the remaining 5 records (source frames
301–305), so no activity frame is lost to the cap. -/
theorem cap_flush_at_frame_300_keeps_remainder :
    (runTrace liveParams initSeg 0 c4Input).map Prod.fst = [299] ∧
    (runTrace liveParams initSeg 0 c4Input).map
      (fun x => x.2.frames.length) = [300] ∧
    (runTrace liveParams initSeg 0 c4Input).map
      (fun x => x.2.frames.map FrameRec.frameNumber) =
      [(List.range 300).map (· + 1)] ∧
    (runFrames liveParams initSeg c4Input).activeFrames.map
      FrameRec.frameNumber = [301, 302, 303, 304, 305] ∧
    (runFrames liveParams initSeg c4Input).activeFrames.map
      FrameRec.seq = [0, 1, 2, 3, 4] ∧
    (runFrames liveParams initSeg c4Input).episodeStart = some 299 := by
  decide

set_option maxRecDepth 8000 in
/-- C5 counterexample: after 120 consecutive activity frames in polling
mode the 120th append triggers the cap-forced flush, leaving a reachable
between-steps state whose episode start time is recorded while the frame
list is empty — an existing episode with zero records, refuting the claim
as stated. -/
theorem open_episode_with_zero_records_reachable :
    (runFrames pollParams initSeg c5Input).episodeStart = some 119 ∧
    (runFrames pollParams initSeg c5Input).activeFrames = [] := by
  decide

/-- C5 amended: between steps, whenever the frame list is non-empty a
start time is recorded, and the only way a step can produce the inverse
degenerate shape — start time recorded with zero records — from a
non-degenerate state is a cap-forced flush of a full episode; the
degenerate shape arises exactly in the aftermath of a cap flush. -/
theorem open_episode_nonempty_unless_cap_flush (fs : List ProcFrame)
    (p : SegParams) (s : SegState) (f : ProcFrame) :
    ((runFrames liveParams initSeg fs).activeFrames ≠ [] →
      (runFrames liveParams initSeg fs).episodeStart ≠ none) ∧
    ((runFrames pollParams initSeg fs).activeFrames ≠ [] →
      (runFrames pollParams initSeg fs).episodeStart ≠ none) ∧
    (¬ (s.episodeStart ≠ none ∧ s.activeFrames = []) →
      (stepFrame p s f).1.episodeStart ≠ none →
      (stepFrame p s f).1.activeFrames = [] →
      ∃ e, (stepFrame p s f).2 = some e ∧
        p.maxEpisodeFrames ≤ e.frames.length) := by
  refine ⟨?_, ?_, stepFrame_degenerate_only_by_cap p s f⟩
  · exact runFrames_nonempty_start liveParams fs initSeg (by simp [initSeg])
  · exact runFrames_nonempty_start pollParams fs initSeg (by simp [initSeg])

/-- Witness for the amended C5 at concrete inputs: a one-activity-frame run
has a recorded start time, and a cap flush with a one-frame cap produces
the degenerate state while flushing a full episode. -/
theorem open_episode_nonempty_unless_cap_flush_witness :
    (runFrames liveParams initSeg [actFrame 0]).episodeStart ≠ none ∧
    (∃ e, (stepFrame ⟨15, 1⟩ initSeg (actFrame 0)).2 = some e ∧
      (1 : Nat) ≤ e.frames.length) := by
  have h := open_episode_nonempty_unless_cap_flush [actFrame 0]
    ⟨15, 1⟩ initSeg (actFrame 0)
  exact ⟨h.1 (by decide), h.2.2 (by decide) (by decide) (by decide)⟩

/-- The alert scan makes at most one send attempt. -/
theorem alertScan_fst_le_one (sendOk : Bool) (now lastAlert : Int) :
    ∀ ds : List Det, (alertScan sendOk now lastAlert ds).1 ≤ 1 := by
  intro ds
  induction ds with
  | nil => simp [alertScan]
  | cons d ds ih =>
    by_cases hd : qualifiesForAlert d = true
    · simp [alertScan, hd]
    · simpa [alertScan, hd] using ih

/-- On a batch holding a qualifying detection, the scan attempts exactly
one send; the stored time advances only when the send succeeds. -/
theorem alertScan_eq_of_exists (sendOk : Bool) (now lastAlert : Int)
    (ds : List Det) (h : ∃ d ∈ ds, qualifiesForAlert d = true) :
    alertScan sendOk now lastAlert ds =
      (1, if sendOk then now else lastAlert) := by
  induction ds with
  | nil => simp at h
  | cons d ds ih =>
    by_cases hd : qualifiesForAlert d = true
    · simp [alertScan, hd]
    · have hds : ∃ x ∈ ds, qualifiesForAlert x = true := by
        rcases h with ⟨x, hx, hq⟩
        rcases List.mem_cons.mp hx with rfl | hx
        · exact absurd hq hd
        · exact ⟨x, hx, hq⟩
      simpa [alertScan, hd] using ih hds

/-- A send attempt implies a qualifying detection in the batch. -/
theorem alertScan_pos_exists (sendOk : Bool) (now lastAlert : Int) :
    ∀ ds : List Det, 1 ≤ (alertScan sendOk now lastAlert ds).1 →
      ∃ d ∈ ds, qualifiesForAlert d = true := by
  intro ds
  induction ds with
  | nil => simp [alertScan]
  | cons d ds ih =>
    by_cases hd : qualifiesForAlert d = true
    · intro _; exact ⟨d, List.mem_cons_self d ds, hd⟩
    · intro hs
      rcases ih (by simpa [alertScan, hd] using hs) with ⟨x, hx, hq⟩
      exact ⟨x, List.mem_cons_of_mem d hx, hq⟩

/-- A failed send leaves the stored alert time unchanged. -/
theorem alertScan_snd_of_failed (now lastAlert : Int) :
    ∀ ds : List Det, (alertScan false now lastAlert ds).2 = lastAlert := by
  intro ds
  induction ds with
  | nil => simp [alertScan]
  | cons d ds ih =>
    by_cases hd : qualifiesForAlert d = true
    · simp [alertScan, hd]
    · simpa [alertScan, hd] using ih

/-- The Boolean qualifying test, unfolded. -/
theorem qualifiesForAlert_iff (d : Det) :
    qualifiesForAlert d = true ↔
      lowerAscii d.cls = "person" ∧
      ALERT_CONFIDENCE_THRESHOLD ≤ d.confidence := by
  simp [qualifiesForAlert]

/-- C8: with `ALERT_COOLDOWN = 30` and confidence threshold 0.7, each
detection batch gets at most one send attempt; a notification fires only
when the batch holds a person detection at confidence ≥ 0.7 and the
cooldown has elapsed; and for qualifying batches at times `t`, `t + 10`
and `t + 35` (all sends succeeding, `last_alert_time` starting at its
initial value 0 with `t` past the cooldown), notifications fire exactly at
`t` and `t + 35`. -/
theorem alert_cooldown_scenario (t : Int) (b1 b2 b3 : List Det)
    (ht : ALERT_COOLDOWN ≤ t - 0)
    (h1 : ∃ d ∈ b1, qualifiesForAlert d = true)
    (_h2 : ∃ d ∈ b2, qualifiesForAlert d = true)
    (h3 : ∃ d ∈ b3, qualifiesForAlert d = true) :
    (∀ (e s : Bool) (n l : Int) (ds : List Det),
      (sendTelegramAlert e s n l ds).1 ≤ 1) ∧
    (∀ (s : Bool) (n l : Int) (ds : List Det),
      1 ≤ (sendTelegramAlert true s n l ds).1 →
        (∃ d ∈ ds, lowerAscii d.cls = "person" ∧
          ALERT_CONFIDENCE_THRESHOLD ≤ d.confidence) ∧
        ALERT_COOLDOWN ≤ n - l) ∧
    sendTelegramAlert true true t 0 b1 = (1, t) ∧
    sendTelegramAlert true true (t + 10)
      (sendTelegramAlert true true t 0 b1).2 b2 = (0, t) ∧
    sendTelegramAlert true true (t + 35)
      (sendTelegramAlert true true (t + 10)
        (sendTelegramAlert true true t 0 b1).2 b2).2 b3 = (1, t + 35) := by
  have hstep1 : sendTelegramAlert true true t 0 b1 = (1, t) := by
    rw [sendTelegramAlert, if_pos rfl, if_neg (by omega),
      alertScan_eq_of_exists true t 0 b1 h1]
    rfl
  have hcool : ALERT_COOLDOWN = (30 : Int) := rfl
  refine ⟨?_, ?_, hstep1, ?_, ?_⟩
  · intro e s n l ds
    rw [sendTelegramAlert]
    split
    · split
      · simp
      · exact alertScan_fst_le_one s n l ds
    · simp
  · intro s n l ds hfire
    rw [sendTelegramAlert, if_pos rfl] at hfire
    by_cases hc : n - l < ALERT_COOLDOWN
    · rw [if_pos hc] at hfire; simp at hfire
    · rw [if_neg hc] at hfire
      refine ⟨?_, by omega⟩
      rcases alertScan_pos_exists s n l ds hfire with ⟨d, hd, hq⟩
      exact ⟨d, hd, (qualifiesForAlert_iff d).mp hq⟩
  · rw [hstep1]
    rw [sendTelegramAlert, if_pos rfl, if_pos (by omega)]
  · rw [hstep1]
    have hstep2 : sendTelegramAlert true true (t + 10) t b2 = (0, t) := by
      rw [sendTelegramAlert, if_pos rfl, if_pos (by omega)]
    rw [hstep2]
    rw [sendTelegramAlert, if_pos rfl, if_neg (by omega),
      alertScan_eq_of_exists true (t + 35) t b3 h3]
    rfl

/-- Witness for C8 at `t = 100` and one-person batches. -/
theorem alert_cooldown_scenario_witness :
    sendTelegramAlert true true 100 0 [personDet] = (1, 100) ∧
    sendTelegramAlert true true 110
      (sendTelegramAlert true true 100 0 [personDet]).2 [personDet] =
      (0, 100) ∧
    sendTelegramAlert true true 135
      (sendTelegramAlert true true 110
        (sendTelegramAlert true true 100 0 [personDet]).2 [personDet]).2
      [personDet] = (1, 135) := by
  have h := alert_cooldown_scenario 100 [personDet] [personDet] [personDet]
    (by decide) (by decide) (by decide) (by decide)
  exact ⟨h.2.2.1, h.2.2.2.1, h.2.2.2.2⟩

/-- C10: `last_alert_time` is updated only when `send_alert` returns
without raising; a failed send leaves it unchanged, the scan still stops
after the first qualifying detection (at most one attempt per batch), and
after a failed attempt the very next qualifying batch — at any time not
earlier than the failed one — fires immediately. -/
theorem alert_failed_send_keeps_cooldown_open
    (now lastAlert t2 : Int) (dets dets2 : List Det)
    (hq : ∃ d ∈ dets, qualifiesForAlert d = true)
    (hgate : ALERT_COOLDOWN ≤ now - lastAlert)
    (hq2 : ∃ d ∈ dets2, qualifiesForAlert d = true)
    (ht2 : now ≤ t2) :
    (∀ (e : Bool) (n l : Int) (ds : List Det),
      (sendTelegramAlert e false n l ds).2 = l) ∧
    (∀ (e s : Bool) (n l : Int) (ds : List Det),
      (sendTelegramAlert e s n l ds).2 ≠ l → s = true) ∧
    (∀ (e s : Bool) (n l : Int) (ds : List Det),
      (sendTelegramAlert e s n l ds).1 ≤ 1) ∧
    sendTelegramAlert true false now lastAlert dets = (1, lastAlert) ∧
    (sendTelegramAlert true true t2 lastAlert dets2).1 = 1 := by
  have hkeep : ∀ (e : Bool) (n l : Int) (ds : List Det),
      (sendTelegramAlert e false n l ds).2 = l := by
    intro e n l ds
    rw [sendTelegramAlert]
    split
    · split
      · rfl
      · exact alertScan_snd_of_failed n l ds
    · rfl
  refine ⟨hkeep, ?_, ?_, ?_, ?_⟩
  · intro e s n l ds hne
    cases s
    · exact absurd (hkeep e n l ds) hne
    · rfl
  · intro e s n l ds
    rw [sendTelegramAlert]
    split
    · split
      · simp
      · exact alertScan_fst_le_one s n l ds
    · simp
  · rw [sendTelegramAlert, if_pos rfl,
      if_neg (by have : ALERT_COOLDOWN = (30 : Int) := rfl; omega),
      alertScan_eq_of_exists false now lastAlert dets hq]
    rfl
  · rw [sendTelegramAlert, if_pos rfl,
      if_neg (by have : ALERT_COOLDOWN = (30 : Int) := rfl; omega),
      alertScan_eq_of_exists true t2 lastAlert dets2 hq2]

/-- Witness for C10 at concrete inputs: a qualifying batch at time 100 with
the cooldown elapsed and a failed send, then a qualifying batch at the
same time with a succeeding send. -/
theorem alert_failed_send_keeps_cooldown_open_witness :
    sendTelegramAlert true false 100 0 [personDet] = (1, 0) ∧
    (sendTelegramAlert true true 100 0 [personDet]).1 = 1 := by
  have h := alert_failed_send_keeps_cooldown_open 100 0 100
    [personDet] [personDet] (by decide) (by decide) (by decide) (by decide)
  exact ⟨h.2.2.2.1, h.2.2.2.2⟩

/-- C6: with a Redis client connected and its calls succeeding, one
delivery attempt — for a per-frame event (`_post_detection`) or an episode
(`_send_episode`) alike — pushes onto the reliable queue
`'detection_queue'` and publishes on the broadcast topic `'live_events'`,
attempting both and nothing else; the HTTP fallback is attempted only when
Redis is unconfigured or the queue path raised; and on the pure fallback
path neither queue nor broadcast is touched. -/
theorem delivery_dual_path (env : TransportEnv) :
    (env.redisConfigured = true → env.lpushOk = true →
      env.publishOk = true →
      postDetectionTrace env =
        [.lpush "detection_queue", .publish "live_events"] ∧
      (sendEpisodeOutcome env).1 =
        [.lpush "detection_queue", .publish "live_events"]) ∧
    (DeliveryAction.httpPost ∈ postDetectionTrace env →
      env.redisConfigured = false ∨ env.lpushOk = false ∨
        env.publishOk = false) ∧
    (DeliveryAction.httpPost ∈ (sendEpisodeOutcome env).1 →
      env.redisConfigured = false ∨ env.lpushOk = false ∨
        env.publishOk = false) ∧
    (env.redisConfigured = false →
      DeliveryAction.lpush "detection_queue" ∉ postDetectionTrace env ∧
      DeliveryAction.lpush "detection_queue" ∉ (sendEpisodeOutcome env).1 ∧
      DeliveryAction.publish "live_events" ∉ postDetectionTrace env ∧
      DeliveryAction.publish "live_events" ∉ (sendEpisodeOutcome env).1) := by
  obtain ⟨rc, lo, po, ec, hs⟩ := env
  cases rc <;> cases lo <;> cases po <;> cases ec <;>
    simp [postDetectionTrace, sendEpisodeOutcome, sendEpisodeHttpTail,
      httpFallbackTrace]

/-- Witness for C6 in the fully-working environment. -/
theorem delivery_dual_path_witness :
    postDetectionTrace ⟨true, true, true, true, some 200⟩ =
      [.lpush "detection_queue", .publish "live_events"] ∧
    (sendEpisodeOutcome ⟨true, true, true, true, some 200⟩).1 =
      [.lpush "detection_queue", .publish "live_events"] := by
  exact (delivery_dual_path ⟨true, true, true, true, some 200⟩).1 rfl rfl rfl

/-- C7 counterexample: a fallback POST answered with 201 — a 2xx status —
is treated as a delivery failure by `_send_episode` (it returns `False`),
refuting "successful if and only if the response status is 2xx": the code
accepts exactly status 200. -/
theorem fallback_201_treated_as_failure :
    ((200 : Nat) ≤ 201 ∧ (201 : Nat) < 300) ∧
    (sendEpisodeOutcome env201).1 = [.httpPost] ∧
    (sendEpisodeOutcome env201).2 = false := by
  decide

/-- C7 amended: on the fallback path a delivery attempt succeeds if and
only if the response status is exactly 200; any other status (2xx
included) or a transport error is a failure, and neither sender retries —
at most one fallback POST is attempted per payload. -/
theorem fallback_success_iff_status_200 (env : TransportEnv) :
    (env.redisConfigured = false →
      ((sendEpisodeOutcome env).2 = true ↔
        env.endpointConfigured = true ∧ env.httpStatus = some 200)) ∧
    (sendEpisodeOutcome env).1.count .httpPost ≤ 1 ∧
    (postDetectionTrace env).count .httpPost ≤ 1 := by
  obtain ⟨rc, lo, po, ec, hs⟩ := env
  cases rc <;> cases lo <;> cases po <;> cases ec <;> cases hs <;>
    simp [postDetectionTrace, sendEpisodeOutcome, sendEpisodeHttpTail,
      httpFallbackTrace, List.count_cons, beq_iff_eq]

/-- Witness for the amended C7: status 200 on the pure fallback path is a
success. -/
theorem fallback_success_iff_status_200_witness :
    (sendEpisodeOutcome ⟨false, true, true, true, some 200⟩).2 = true := by
  exact ((fallback_success_iff_status_200
    ⟨false, true, true, true, some 200⟩).1 rfl).mpr ⟨rfl, rfl⟩

/-- C9 counterexample: starting a detector constructed with the unknown
mode `"BOGUS"` (Redis configured) raises the fatal error only as the last
event — after the Redis connection, the model load and the heartbeat
thread start — refuting "before any resources are acquired". -/
theorem unknown_mode_resources_before_fatal :
    startEvents "BOGUS" true =
      [.redisConnect, .loadModel, .startHeartbeat, .fatalUnknownMode] ∧
    StartEvent.loadModel ∈ (startEvents "BOGUS" true).take 3 ∧
    StartEvent.startHeartbeat ∈ (startEvents "BOGUS" true).take 3 ∧
    StartEvent.redisConnect ∈ (startEvents "BOGUS" true).take 3 ∧
    (startEvents "BOGUS" true).getLast? = some .fatalUnknownMode := by
  decide

/-- C9 amended: an unknown mode is fatal in `start()` before any per-mode
source loop is entered (so no frame source is ever opened), but only after
`__init__` has loaded the model and connected to Redis and after the
heartbeat thread is started; separately, the CLI parser rejects the
unknown mode up front. -/
theorem unknown_mode_fatal_after_init (mode : String) (r : Bool)
    (h : upperAscii mode ∉ recognizedModes) :
    startEvents mode r =
      initEvents r ++ (if r then [.startHeartbeat] else [])
        ++ [.fatalUnknownMode] ∧
    StartEvent.runFileLoop ∉ startEvents mode r ∧
    StartEvent.runStreamLoop ∉ startEvents mode r ∧
    StartEvent.runHttpLoop ∉ startEvents mode r ∧
    StartEvent.loadModel ∈ startEvents mode r ∧
    (r = true → StartEvent.startHeartbeat ∈ startEvents mode r) ∧
    parseArgsAccepts mode = false := by
  have h1 : upperAscii mode ≠ "UPLOAD" := by
    intro e; exact h (by rw [e]; decide)
  have h2 : upperAscii mode ≠ "LIVE" := by
    intro e; exact h (by rw [e]; decide)
  have h3 : upperAscii mode ≠ "HTTP" := by
    intro e; exact h (by rw [e]; decide)
  have htr : startEvents mode r =
      initEvents r ++ (if r then [.startHeartbeat] else [])
        ++ [.fatalUnknownMode] := by
    rw [startEvents, if_neg h1, if_neg h2, if_neg h3]
  have hacc : parseArgsAccepts mode = false := by
    cases hdec : decide (mode ∈ recognizedModes) with
    | false => simpa [parseArgsAccepts] using hdec
    | true =>
      have hm := of_decide_eq_true hdec
      have : mode = "UPLOAD" ∨ mode = "LIVE" ∨ mode = "HTTP" := by
        simpa [recognizedModes] using hm
      rcases this with rfl | rfl | rfl
      · exact absurd (by decide) h
      · exact absurd (by decide) h
      · exact absurd (by decide) h
  refine ⟨htr, ?_, ?_, ?_, ?_, ?_, hacc⟩ <;> rw [htr] <;>
    cases r <;> decide

/-- Witness for the amended C9 at mode `"BOGUS"` with Redis configured. -/
theorem unknown_mode_fatal_after_init_witness :
    startEvents "BOGUS" true =
      initEvents true ++ (if true then [StartEvent.startHeartbeat] else [])
        ++ [StartEvent.fatalUnknownMode] ∧
    StartEvent.loadModel ∈ startEvents "BOGUS" true ∧
    StartEvent.startHeartbeat ∈ startEvents "BOGUS" true ∧
    parseArgsAccepts "BOGUS" = false := by
  have h := unknown_mode_fatal_after_init "BOGUS" true (by decide)
  exact ⟨h.1, h.2.2.2.2.1, h.2.2.2.2.2.1 rfl, h.2.2.2.2.2.2⟩

end SecureWatch
